import Mathlib

/-!
Verification of the EEG Mood Classifier (src/EEG.py).

The program is embedded shallowly over `ℚ`:

* `predict_mood` (EEG.py lines 31-38): the three-way threshold classifier.
  `np.mean` of an empty array is NaN, and every IEEE comparison against NaN
  is false; we model the mean as `Option ℚ` (`none` for the empty input) and
  the two strict comparisons as `nan_gt` / `nan_lt`, which are false on
  `none`.
* `load_csv_file` (lines 118-130): the tabular file is modelled as a
  `DataFrame` (column names plus row-major cells); the result of
  `pd.read_csv` for the chosen file arrives as an
  `Option (Except String DataFrame)` parameter (`none` when the dialog is
  cancelled, `Except.error` when reading raises).
* `on_button_click` (lines 132-141): Python's builtin `float` is an external
  parameter `pyfloat : String → Option ℚ` (`none` models a raised
  `ValueError`); the list comprehension that raises on the first bad token
  is `parse_values`; `text.split(',')` is `split_commas`.
* `animate` / `update` (lines 167-194): the per-frame random sources of
  `nx.erdos_renyi_graph` and `np.random.rand(3)` are explicit parameters;
  a frame records exactly the data handed to the plotting calls; `ani.save`
  arrives as an `Except String Unit` parameter and the `print` calls become
  a returned log list.
* `plot_3d_network` / `erdos_renyi_graph` (lines 46-70): networkx's
  G(n, p) generator adds each candidate pair `(i, j)`, `i < j`, exactly when
  that pair's own uniform draw from `[0, 1)` is below `p`; the draws are an
  explicit parameter `draw`.
-/

/-- Model of `np.mean`: the arithmetic mean of the values, `none` for the
empty input (where numpy produces NaN). -/
def np_mean (xs : List ℚ) : Option ℚ :=
  if xs.isEmpty then none else some (xs.sum / xs.length)

/-- IEEE-style strict greater-than against a possibly-NaN value: any
comparison with NaN (modelled by `none`) is false. -/
def nan_gt (a : Option ℚ) (b : ℚ) : Bool :=
  match a with
  | none => false
  | some x => decide (b < x)

/-- IEEE-style strict less-than against a possibly-NaN value: any comparison
with NaN (modelled by `none`) is false. -/
def nan_lt (a : Option ℚ) (b : ℚ) : Bool :=
  match a with
  | none => false
  | some x => decide (x < b)

/-- EEG.py lines 31-38: mood prediction from the average EEG value. -/
def predict_mood (eeg_values : List ℚ) : String × String :=
  let avg := np_mean eeg_values
  if nan_gt avg 2 then
    ("Happy", "Brain activity shows high energy, suggesting a happy mood.")
  else if nan_lt avg (-2) then
    ("Sad", "Low energy detected, may indicate sadness.")
  else
    ("Neutral", "Balanced activity, likely a neutral mood.")

/-- A pandas data frame: column names and row-major numeric cells. -/
structure DataFrame where
  columns : List String
  rows : List (List ℚ)

/-- Model of `df.drop(name, axis=1)`: every column whose name equals `name`
is removed, and each row loses the cells at those columns. -/
def DataFrame.drop (df : DataFrame) (name : String) : DataFrame where
  columns := df.columns.filter (fun c => decide (c ≠ name))
  rows := df.rows.map (fun r =>
    ((r.zip df.columns).filter (fun p => decide (p.2 ≠ name))).map Prod.fst)

/-- Model of `df.values.flatten()`: the cells in row-major order. -/
def DataFrame.values_flattened (df : DataFrame) : List ℚ :=
  df.rows.flatten

/-- EEG.py lines 123-126: drop a column literally named "label" when present,
flatten row-major, keep the first 100 values. -/
def load_csv_values (df : DataFrame) : List ℚ :=
  let df2 := if "label" ∈ df.columns then df.drop "label" else df
  df2.values_flattened.take 100

/-- The UI state the handlers read and write: the text-entry field and the
two output labels. -/
structure AppState where
  eeg_input : String
  result_label : String
  network_info_label : String

/-- Model of `', '.join(map(str, values))`. -/
def join_comma (vals : List ℚ) : String :=
  String.intercalate ", " (vals.map toString)

/-- EEG.py lines 118-130, `load_csv_file`: the dialog result is `none` when
cancelled; a successful read yields the frame, a raised exception its
message. Only a successful read, drop and truncation reach `setText`; the
`except` branch writes the two labels instead. -/
def load_csv_file (st : AppState) (dialog : Option (Except String DataFrame)) :
    AppState :=
  match dialog with
  | none => st
  | some (Except.ok df) =>
    { st with eeg_input := join_comma (load_csv_values df) }
  | some (Except.error e) =>
    { st with result_label := "Could not read CSV file.",
              network_info_label := e }

/-- Model of Python `text.split(',')` on the character list: split at every
comma, keeping empty tokens. -/
def split_commas_chars : List Char → List (List Char)
  | [] => [[]]
  | c :: cs =>
    if c = ',' then [] :: split_commas_chars cs
    else
      match split_commas_chars cs with
      | [] => [[c]]
      | t :: ts => (c :: t) :: ts

/-- Model of Python `text.split(',')` on strings. -/
def split_commas (s : String) : List String :=
  (split_commas_chars s.data).map (fun cs => String.mk cs)

/-- Model of `[float(x) for x in tokens]` where `pyfloat` is Python's
builtin `float`: the comprehension raises (yields `none`) as soon as one
token fails to parse. -/
def parse_values (pyfloat : String → Option ℚ) : List String → Option (List ℚ)
  | [] => some []
  | t :: ts =>
    match pyfloat t with
    | none => none
    | some v => (parse_values pyfloat ts).map (fun vs => v :: vs)

/-- EEG.py lines 132-141, `on_button_click`: parse the comma-separated text;
on success show the mood and its explanation, on any parse failure the bare
`except` writes the two fixed error texts and leaves the rest of the state
alone. -/
def on_button_click (pyfloat : String → Option ℚ) (st : AppState) : AppState :=
  match parse_values pyfloat (split_commas st.eeg_input) with
  | some eeg_values =>
    { st with result_label := "Mood: " ++ (predict_mood eeg_values).1,
              network_info_label := (predict_mood eeg_values).2 }
  | none =>
    { st with result_label := "Invalid EEG input.",
              network_info_label := "Animation failed." }

/-- A networkx-style graph: labelled nodes and an edge list. -/
structure Graph where
  nodes : List ℕ
  edges : List (ℕ × ℕ)

/-- The 45 candidate pairs `(i, j)` with `i < j < n` that the G(n, p)
generator examines (for `n = 10`). -/
def candidate_pairs (n : ℕ) : List (ℕ × ℕ) :=
  (List.range n).flatMap (fun i =>
    ((List.range n).filter (fun j => decide (i < j))).map (fun j => (i, j)))

/-- Model of `nx.erdos_renyi_graph n p`: nodes `0, …, n-1`; each candidate
pair is included exactly when its own uniform `[0, 1)` draw is below `p`. -/
def erdos_renyi_graph (n : ℕ) (p : ℚ) (draw : ℕ × ℕ → ℚ) : Graph where
  nodes := List.range n
  edges := (candidate_pairs n).filter (fun e => decide (draw e < p))

/-- Model of `pos = {i: np.random.rand(3) for i in G.nodes}`: each node of
the graph paired with its own 3D draw. -/
def node_positions (g : Graph) (rand3 : ℕ → ℚ × ℚ × ℚ) :
    List (ℕ × (ℚ × ℚ × ℚ)) :=
  g.nodes.map (fun i => (i, rand3 i))

/-- EEG.py lines 46-70, `plot_3d_network`: one fresh `erdos_renyi_graph 10 0.3`
and fresh random positions per call. -/
def plot_3d_network (draw : ℕ × ℕ → ℚ) (rand3 : ℕ → ℚ × ℚ × ℚ) :
    Graph × List (ℕ × (ℚ × ℚ × ℚ)) :=
  let G := erdos_renyi_graph 10 (3 / 10) draw
  (G, node_positions G rand3)

/-- Model of `np.linspace(a, b, num)` with the default inclusive endpoint. -/
def linspace (a b : ℚ) (num : ℕ) : List ℚ :=
  if num = 0 then []
  else if num = 1 then [a]
  else (List.range num).map (fun i => a + (b - a) * i / (num - 1))

/-- What one animation frame draws: the 2D line-plot series and the fresh
3D network with its node positions. -/
structure Frame where
  xs : List ℚ
  ys : List ℚ
  network : Graph
  positions : List (ℕ × (ℚ × ℚ × ℚ))

/-- EEG.py lines 168-187, the `update` closure: at frame index `frame` plot
`np.linspace(0, frame, frame)` against `eeg_values[:frame]` and redraw a
brand-new `erdos_renyi_graph 10 0.3` with fresh positions. -/
def update (eeg_values : List ℚ) (draw : ℕ × ℕ → ℚ)
    (rand3 : ℕ → ℚ × ℚ × ℚ) (frame : ℕ) : Frame where
  xs := linspace 0 frame frame
  ys := eeg_values.take frame
  network := erdos_renyi_graph 10 (3 / 10) draw
  positions := node_positions (erdos_renyi_graph 10 (3 / 10) draw) rand3

/-- EEG.py lines 167-194, `animate`: `FuncAnimation` runs `update` at frame
indices `np.arange(1, len(eeg_values)+1)`, each frame with its own fresh
random sources; `ani.save` either succeeds or raises, and either way only a
diagnostic line is printed (returned here as the log list) while the UI
state is returned untouched. -/
def animate (st : AppState) (eeg_values : List ℚ)
    (draws : ℕ → ℕ × ℕ → ℚ) (rand3s : ℕ → ℕ → ℚ × ℚ × ℚ)
    (saveResult : Except String Unit) : AppState × List Frame × List String :=
  let frames := (List.range' 1 eeg_values.length).map
    (fun f => update eeg_values (draws f) (rand3s f) f)
  match saveResult with
  | Except.ok _ => (st, frames, ["Animation saved as GIF."])
  | Except.error e => (st, frames, ["Could not save animation: " ++ e])

/-- Spec-side description of the file-load flattening: from each row keep,
in order, exactly the cells whose column position is not named "label",
then concatenate the rows. -/
def spec_cells_without_label (df : DataFrame) : List ℚ :=
  (df.rows.map (fun r =>
    (List.range r.length).filterMap (fun i =>
      if df.columns[i]? = some "label" then none else r[i]?))).flatten

/-- Membership of a 3D point in the unit cube `[0, 1)³`, the range of
`np.random.rand(3)`. -/
def inUnitCube (v : ℚ × ℚ × ℚ) : Prop :=
  0 ≤ v.1 ∧ v.1 < 1 ∧ 0 ≤ v.2.1 ∧ v.2.1 < 1 ∧ 0 ≤ v.2.2 ∧ v.2.2 < 1

theorem np_mean_ne_nil (l : List ℚ) (h : l ≠ []) :
    np_mean l = some (l.sum / l.length) := by
  simp [np_mean, h]

theorem predict_mood_mean_eq (l1 l2 : List ℚ) (h : np_mean l1 = np_mean l2) :
    predict_mood l1 = predict_mood l2 := by
  simp only [predict_mood, h]

/-- C1: for every non-empty sequence, `predict_mood` computes the mean and
returns Happy with its message when the mean exceeds 2, Sad with its message
when the mean is below -2, and Neutral with its message when the mean lies in
[-2, 2]; in particular the boundary input [2, 2, 2] is Neutral. -/
theorem predict_mood_threshold_spec (l : List ℚ) (h : l ≠ []) :
    (l.sum / (l.length : ℚ) > 2 →
      predict_mood l =
        ("Happy", "Brain activity shows high energy, suggesting a happy mood.")) ∧
    (l.sum / (l.length : ℚ) < -2 →
      predict_mood l =
        ("Sad", "Low energy detected, may indicate sadness.")) ∧
    (-2 ≤ l.sum / (l.length : ℚ) ∧ l.sum / (l.length : ℚ) ≤ 2 →
      predict_mood l =
        ("Neutral", "Balanced activity, likely a neutral mood.")) ∧
    predict_mood [2, 2, 2] =
      ("Neutral", "Balanced activity, likely a neutral mood.") := by
  have hm := np_mean_ne_nil l h
  refine ⟨?_, ?_, ?_, ?_⟩
  · intro hgt
    simp [predict_mood, hm, nan_gt, hgt]
  · intro hlt
    have hngt : ¬ (2 : ℚ) < l.sum / l.length := by linarith
    simp [predict_mood, hm, nan_gt, nan_lt, hngt, hlt]
  · rintro ⟨h1, h2⟩
    have hngt : ¬ (2 : ℚ) < l.sum / l.length := by linarith
    have hnlt : ¬ l.sum / (l.length : ℚ) < -2 := by linarith
    simp [predict_mood, hm, nan_gt, nan_lt, hngt, hnlt]
  · have hm2 : np_mean [2, 2, 2] = some 2 := by norm_num [np_mean]
    simp [predict_mood, hm2, nan_gt, nan_lt]

theorem predict_mood_threshold_spec_witness :
    predict_mood [3, 3, 3] =
      ("Happy", "Brain activity shows high energy, suggesting a happy mood.") :=
  (predict_mood_threshold_spec [3, 3, 3] (by simp)).1 (by norm_num)

/-- C2: the classifier output is a function of the mean alone: two non-empty
sequences with equal mean get the same (mood, explanation) pair, and the
output is invariant under any permutation of the input. -/
theorem predict_mood_mean_invariant :
    (∀ l1 l2 : List ℚ, l1 ≠ [] → l2 ≠ [] →
       l1.sum / (l1.length : ℚ) = l2.sum / (l2.length : ℚ) →
       predict_mood l1 = predict_mood l2) ∧
    (∀ l1 l2 : List ℚ, l1.Perm l2 → predict_mood l1 = predict_mood l2) := by
  constructor
  · intro l1 l2 h1 h2 he
    apply predict_mood_mean_eq
    rw [np_mean_ne_nil _ h1, np_mean_ne_nil _ h2, he]
  · intro l1 l2 hp
    apply predict_mood_mean_eq
    have hempty : l1.isEmpty = l2.isEmpty := by
      cases l1 with
      | nil => simp [hp.nil_eq.symm]
      | cons a t =>
        cases l2 with
        | nil => exact absurd hp.symm.nil_eq (by simp)
        | cons b u => simp
    simp only [np_mean, hempty, hp.sum_eq, hp.length_eq]

theorem predict_mood_mean_invariant_witness :
    predict_mood [1, 1, 1] = predict_mood [3, 0, 0] ∧
    predict_mood [1, 2, 3] = predict_mood [2, 1, 3] :=
  ⟨predict_mood_mean_invariant.1 [1, 1, 1] [3, 0, 0] (by simp) (by simp)
      (by norm_num),
   predict_mood_mean_invariant.2 [1, 2, 3] [2, 1, 3] (List.Perm.swap 2 1 [3])⟩

/-- C9: on the empty sequence the mean is NaN, both strict comparisons are
false, and `predict_mood` falls through to the Neutral branch. -/
theorem predict_mood_empty :
    predict_mood [] = ("Neutral", "Balanced activity, likely a neutral mood.") :=
  rfl

theorem row_cells_eq (r : List ℚ) (cols : List String) (h : r.length = cols.length) :
    ((r.zip cols).filter (fun p => decide (p.2 ≠ "label"))).map Prod.fst =
    (List.range r.length).filterMap (fun i =>
      if cols[i]? = some "label" then none else r[i]?) := by
  induction r generalizing cols with
  | nil => simp
  | cons a t ih =>
    cases cols with
    | nil => simp at h
    | cons b c =>
      have ht : t.length = c.length := by simpa using h
      simp only [List.zip_cons_cons, List.filter_cons, List.length_cons,
        List.range_succ_eq_map, List.filterMap_cons, List.filterMap_map,
        Function.comp_def, List.getElem?_cons_succ, List.getElem?_cons_zero]
      by_cases hb : b = "label"
      · subst hb
        simpa using ih c ht
      · simpa [hb] using ih c ht

theorem row_cells_no_label (r : List ℚ) (cols : List String)
    (h : r.length = cols.length) (hnl : "label" ∉ cols) :
    (List.range r.length).filterMap (fun i =>
      if cols[i]? = some "label" then none else r[i]?) = r := by
  rw [← row_cells_eq r cols h]
  have hall : ∀ p ∈ r.zip cols, (fun p : ℚ × String => decide (p.2 ≠ "label")) p = true := by
    intro p hp
    have : p.2 ∈ cols := (List.of_mem_zip hp).2
    simp only [decide_eq_true_eq]
    intro hq
    exact hnl (hq ▸ this)
  rw [List.filter_eq_self.mpr hall]
  exact List.map_fst_zip r cols (le_of_eq h)

theorem flattened_eq_spec (df : DataFrame)
    (hrect : ∀ r ∈ df.rows, r.length = df.columns.length) :
    (if "label" ∈ df.columns then df.drop "label" else df).values_flattened =
      spec_cells_without_label df := by
  by_cases hmem : "label" ∈ df.columns
  · simp only [hmem, if_pos, DataFrame.values_flattened, DataFrame.drop,
      spec_cells_without_label]
    congr 1
    exact List.map_congr_left (fun r hr => row_cells_eq r df.columns (hrect r hr))
  · simp only [hmem, if_neg, not_false_iff, DataFrame.values_flattened,
      spec_cells_without_label]
    have : df.rows.map (fun r =>
        (List.range r.length).filterMap (fun i =>
          if df.columns[i]? = some "label" then none else r[i]?)) = df.rows := by
      conv_rhs => rw [← List.map_id df.rows]
      exact List.map_congr_left
        (fun r hr => row_cells_no_label r df.columns (hrect r hr) hmem)
    rw [this]

/-- C3: the file load drops a column named exactly "label" when present,
flattens the remaining cells in row-major order, and keeps at most the
first 100 values: all of them when there are at most 100, exactly the
first 100 otherwise. -/
theorem load_csv_values_spec (df : DataFrame)
    (hrect : ∀ r ∈ df.rows, r.length = df.columns.length) :
    load_csv_values df = (spec_cells_without_label df).take 100 ∧
    ((spec_cells_without_label df).length ≤ 100 →
      load_csv_values df = spec_cells_without_label df) ∧
    (100 ≤ (spec_cells_without_label df).length →
      (load_csv_values df).length = 100) := by
  have hmain : load_csv_values df = (spec_cells_without_label df).take 100 := by
    simp only [load_csv_values]
    rw [flattened_eq_spec df hrect]
  refine ⟨hmain, ?_, ?_⟩
  · intro hle
    rw [hmain]
    exact List.take_of_length_le hle
  · intro hge
    rw [hmain, List.length_take]
    omega

theorem load_csv_values_spec_witness :
    load_csv_values ⟨["a", "label"], [[1, 5], [2, 6]]⟩ =
      (spec_cells_without_label ⟨["a", "label"], [[1, 5], [2, 6]]⟩).take 100 ∧
    load_csv_values ⟨["a", "label"], [[1, 5], [2, 6]]⟩ = [1, 2] :=
  ⟨(load_csv_values_spec ⟨["a", "label"], [[1, 5], [2, 6]]⟩ (by simp)).1,
   by simp [load_csv_values, DataFrame.drop, DataFrame.values_flattened]⟩

/-- C4: the animation has one frame per reading, at frame indices 1 to
`len(sequence)` inclusive, and the line plot of frame `f` shows exactly the
first `f` readings. -/
theorem animate_frames_spec (st : AppState) (eeg : List ℚ)
    (draws : ℕ → ℕ × ℕ → ℚ) (rand3s : ℕ → ℕ → ℚ × ℚ × ℚ)
    (sr : Except String Unit) (h : eeg ≠ []) :
    ((animate st eeg draws rand3s sr).2.1).length = eeg.length ∧
    (∀ f, 1 ≤ f → f ≤ eeg.length →
      (((animate st eeg draws rand3s sr).2.1)[f - 1]?).map Frame.ys =
        some (eeg.take f)) := by
  have hframes : (animate st eeg draws rand3s sr).2.1 =
      (List.range' 1 eeg.length).map
        (fun f => update eeg (draws f) (rand3s f) f) := by
    cases sr <;> rfl
  constructor
  · rw [hframes]; simp
  · intro f h1 h2
    rw [hframes]
    have hlt : f - 1 < eeg.length := by omega
    rw [List.getElem?_map, List.getElem?_eq_getElem (by simpa using hlt)]
    simp only [List.getElem_range', Option.map_some', update]
    have hf : 1 + 1 * (f - 1) = f := by omega
    rw [hf]

theorem animate_frames_spec_witness :
    ((animate ⟨"", "", ""⟩ [1, 2] (fun _ _ => 0) (fun _ _ => (0, 0, 0))
        (Except.ok ())).2.1).length = 2 ∧
    (((animate ⟨"", "", ""⟩ [1, 2] (fun _ _ => 0) (fun _ _ => (0, 0, 0))
        (Except.ok ())).2.1)[1 - 1]?).map Frame.ys =
      some (([1, 2] : List ℚ).take 1) :=
  ⟨(animate_frames_spec ⟨"", "", ""⟩ [1, 2] (fun _ _ => 0)
      (fun _ _ => (0, 0, 0)) (Except.ok ()) (by simp)).1,
   (animate_frames_spec ⟨"", "", ""⟩ [1, 2] (fun _ _ => 0)
      (fun _ _ => (0, 0, 0)) (Except.ok ()) (by simp)).2 1 (by omega) (by simp)⟩

theorem parse_values_none_iff (pyfloat : String → Option ℚ) (l : List String) :
    parse_values pyfloat l = none ↔ ∃ t ∈ l, pyfloat t = none := by
  induction l with
  | nil => simp [parse_values]
  | cons t ts ih =>
    simp only [parse_values]
    cases hpt : pyfloat t with
    | none => simp [hpt]
    | some v => simp [hpt, Option.map_eq_none', ih]

/-- C5: when any comma-separated token of the text entry fails to parse, the
predict action takes the error branch: both output labels get the fixed
short error texts, no mood is shown, the entry text is untouched, and the
handler returns a state normally (the bare `except` swallows the
exception). -/
theorem on_button_click_parse_error (pyfloat : String → Option ℚ)
    (st : AppState)
    (h : ∃ tok ∈ split_commas st.eeg_input, pyfloat tok = none) :
    on_button_click pyfloat st =
      { st with result_label := "Invalid EEG input.",
                network_info_label := "Animation failed." } ∧
    (on_button_click pyfloat st).eeg_input = st.eeg_input := by
  have hn : parse_values pyfloat (split_commas st.eeg_input) = none :=
    (parse_values_none_iff pyfloat (split_commas st.eeg_input)).mpr h
  constructor
  · simp [on_button_click, hn]
  · simp [on_button_click, hn]

theorem on_button_click_parse_error_witness :
    on_button_click (fun _ => none) ⟨"abc", "", ""⟩ =
      ⟨"abc", "Invalid EEG input.", "Animation failed."⟩ :=
  (on_button_click_parse_error (fun _ => none) ⟨"abc", "", ""⟩
    ⟨"abc", by decide, rfl⟩).1

/-- C6: when reading the selected file raises, the handler catches the
exception, writes the short failure message to the mood label and the
underlying error text to the info label, and returns a state normally. -/
theorem load_csv_file_read_error (st : AppState) (e : String) :
    load_csv_file st (some (Except.error e)) =
      { st with result_label := "Could not read CSV file.",
                network_info_label := e } ∧
    (load_csv_file st (some (Except.error e))).network_info_label = e :=
  ⟨rfl, rfl⟩

/-- C7: when exporting the GIF fails, `animate` still returns normally: the
UI state comes back untouched, the frames are the same as in the success
case, and the failure only appears on the diagnostic log (stdout). -/
theorem animate_save_failure (st : AppState) (eeg : List ℚ)
    (draws : ℕ → ℕ × ℕ → ℚ) (rand3s : ℕ → ℕ → ℚ × ℚ × ℚ) (e : String) :
    (animate st eeg draws rand3s (Except.error e)).1 = st ∧
    (animate st eeg draws rand3s (Except.error e)).2.2 =
      ["Could not save animation: " ++ e] ∧
    (animate st eeg draws rand3s (Except.error e)).2.1 =
      (animate st eeg draws rand3s (Except.ok ())).2.1 :=
  ⟨rfl, rfl, rfl⟩

/-- C8: every network snapshot has exactly 10 labelled nodes with their own
3D position inside the unit cube; the generator examines exactly the 45
unordered node pairs and includes a pair exactly when that pair's own
uniform draw is below 0.3 (so inclusion is decided independently per pair,
and the inclusion event has measure 3/10 under the uniform distribution on
[0, 1)); each animation frame redraws with the very same rule as the static
render. -/
theorem network_snapshot_spec (draw : ℕ × ℕ → ℚ) (rand3 : ℕ → ℚ × ℚ × ℚ)
    (eeg : List ℚ) (f : ℕ) (h : ∀ i, inUnitCube (rand3 i)) :
    (plot_3d_network draw rand3).1.nodes.length = 10 ∧
    (candidate_pairs 10).length = 45 ∧
    (∀ e, e ∈ (plot_3d_network draw rand3).1.edges ↔
      e ∈ candidate_pairs 10 ∧ draw e < 3 / 10) ∧
    (plot_3d_network draw rand3).2.length = 10 ∧
    (∀ pr ∈ (plot_3d_network draw rand3).2, inUnitCube pr.2) ∧
    (update eeg draw rand3 f).network = (plot_3d_network draw rand3).1 ∧
    (update eeg draw rand3 f).positions = (plot_3d_network draw rand3).2 ∧
    MeasureTheory.volume (Set.Ico (0 : ℝ) (3 / 10)) =
      ENNReal.ofReal (3 / 10) := by
  refine ⟨by simp [plot_3d_network, erdos_renyi_graph], by decide, ?_, ?_, ?_,
    rfl, rfl, ?_⟩
  · intro e
    simp [plot_3d_network, erdos_renyi_graph, List.mem_filter]
  · simp [plot_3d_network, node_positions, erdos_renyi_graph]
  · intro pr hpr
    simp only [plot_3d_network, node_positions, List.mem_map] at hpr
    obtain ⟨i, _, rfl⟩ := hpr
    exact h i
  · rw [Real.volume_Ico]
    norm_num

theorem network_snapshot_spec_witness :
    (candidate_pairs 10).length = 45 ∧
    (plot_3d_network (fun _ => 1) (fun _ => (0, 0, 0))).1.nodes.length = 10 :=
  ⟨(network_snapshot_spec (fun _ => 1) (fun _ => (0, 0, 0)) [] 0
      (fun _ => by norm_num [inUnitCube])).2.1,
   (network_snapshot_spec (fun _ => 1) (fun _ => (0, 0, 0)) [] 0
      (fun _ => by norm_num [inUnitCube])).1⟩

/-- C10: a cancelled dialog leaves the whole state alone, a failed read
leaves the text-entry field alone, and only a fully successful read, drop
and truncation write the new comma-separated text into the field. -/
theorem load_csv_file_input_preserved (st : AppState) (e : String)
    (df : DataFrame) :
    (load_csv_file st (some (Except.error e))).eeg_input = st.eeg_input ∧
    load_csv_file st none = st ∧
    (load_csv_file st (some (Except.ok df))).eeg_input =
      join_comma (load_csv_values df) :=
  ⟨rfl, rfl, rfl⟩
